import Mathlib

/-!
Verification of `src/services/batch_submit.py` (function `submit`).

The Python function is a pure parameter-building wrapper around one remote
call.  We embed it shallowly:

* the `settings` module (absent from the repository) is a record of opaque
  configuration strings, exactly the four fields the source reads;
* the `google.cloud.batch_v1` protobuf constructors become Lean structures
  holding exactly the fields the source sets (plus `mount_options`, which the
  proto carries and the source leaves at its empty default);
* `uuid.uuid4().hex[:6]` becomes an explicit `suffix` argument;
* the remote `client.create_job` call becomes a function argument
  `create_job : String → Job → String → Except PyExn String`
  (parent, job, job_id ↦ created name or raised exception), so that one
  invocation of `submit` performs exactly one application of it;
* Python exceptions relevant to the claims form the inductive `PyExn`.
-/

/-- The configuration values the source reads from the global `settings`
module (`settings.py` is not part of the repository; per the spec these are
opaque provided values). -/
structure Settings where
  project_id : String
  region : String
  bucket : String
  pipeline_manager_url : String
deriving Repr, DecidableEq

/-- Python exceptions relevant to `submit`.  The source itself can only
produce `attributeErrorNoneGroup` (calling `m.group(1)` when `re.match`
returned `None`, line 26) or propagate whatever the remote `create_job` call
raised (modelled as `remoteError` with an abstract code).  The constructors
`invalidInputError` and `submissionError` model the error classes named by
the specification; the source never defines nor raises them — they exist
here only so the specification's claims can be stated and compared against
the code's behaviour. -/
inductive PyExn where
  | attributeErrorNoneGroup : PyExn
  | remoteError : Nat → PyExn
  | invalidInputError : PyExn
  | submissionError : PyExn → PyExn
deriving Repr, DecidableEq

/-! ### The `batch_v1` job description, field for field as the source sets it -/

/-- `batch_v1.GCS(remote_path=...)`. -/
structure GCS where
  remote_path : String
deriving Repr, DecidableEq

/-- `batch_v1.Volume(gcs=..., mount_path=...)`.  The proto also carries
`mount_options` (a GCS volume is mounted read-only exactly when it contains
the option string "ro"); the source never sets it, so construction leaves it
at the proto default `[]`. -/
structure Volume where
  gcs : GCS
  mount_path : String
  mount_options : List String
deriving Repr, DecidableEq

/-- `batch_v1.Runnable.Container(image_uri=..., entrypoint=..., commands=...)`. -/
structure Container where
  image_uri : String
  entrypoint : String
  commands : List String
deriving Repr, DecidableEq

/-- `batch_v1.Runnable(container=...)`. -/
structure Runnable where
  container : Container
deriving Repr, DecidableEq

/-- `batch_v1.ComputeResource(cpu_milli=..., memory_mib=...)`. -/
structure ComputeResource where
  cpu_milli : Nat
  memory_mib : Nat
deriving Repr, DecidableEq

/-- `batch_v1.TaskSpec(runnables=..., volumes=..., compute_resource=...,
max_run_duration=...)`; the duration is kept in seconds, as the source
writes `duration_pb2.Duration(seconds=3600)`. -/
structure TaskSpec where
  runnables : List Runnable
  volumes : List Volume
  compute_resource : ComputeResource
  max_run_duration_seconds : Nat
deriving Repr, DecidableEq

/-- `batch_v1.TaskGroup(task_spec=..., task_count=...)`. -/
structure TaskGroup where
  task_spec : TaskSpec
  task_count : Nat
deriving Repr, DecidableEq

/-- `batch_v1.LogsPolicy.Destination`. -/
inductive LogsDestination where
  | DESTINATION_UNSPECIFIED : LogsDestination
  | CLOUD_LOGGING : LogsDestination
  | PATH : LogsDestination
deriving Repr, DecidableEq

/-- `batch_v1.LogsPolicy(destination=..., logs_path=...)`. -/
structure LogsPolicy where
  destination : LogsDestination
  logs_path : String
deriving Repr, DecidableEq

/-- `batch_v1.AllocationPolicy.InstancePolicy(machine_type=...)`. -/
structure InstancePolicy where
  machine_type : String
deriving Repr, DecidableEq

/-- `batch_v1.AllocationPolicy(instances=[...])`; the
`InstancePolicyOrTemplate(policy=...)` wrapper adds no data the source uses,
so each list entry is the wrapped `InstancePolicy`. -/
structure AllocationPolicy where
  instances : List InstancePolicy
deriving Repr, DecidableEq

/-- `batch_v1.Job(task_groups=..., allocation_policy=..., logs_policy=...,
labels=...)`. -/
structure Job where
  task_groups : List TaskGroup
  allocation_policy : AllocationPolicy
  logs_policy : LogsPolicy
  labels : List (String × String)
deriving Repr, DecidableEq

/-! ### Substring toolkit (used to state properties of the script text) -/

/-- `headMatches sub s` is true when `sub` occurs at the very start of `s`. -/
def headMatches : List Char → List Char → Bool
  | [], _ => true
  | _ :: _, [] => false
  | a :: as, b :: bs => a == b && headMatches as bs

/-- `listContains s sub` is true when `sub` occurs contiguously anywhere in
`s`. -/
def listContains : List Char → List Char → Bool
  | [], sub => sub.isEmpty
  | s@(_ :: t), sub => headMatches sub s || listContains t sub

/-- `containsSubstr s sub`: the string `sub` occurs contiguously in `s`. -/
def containsSubstr (s sub : String) : Bool :=
  listContains s.data sub.data

/-! ### The scene-locator pattern

`re.match(r"^gs://([^/]+)/.+$", blend_uri)` (line 25).  Hand-compiled regex
semantics, re-traceable against Python `re`:

* `re.match` anchors at the start only; the trailing `$` in the pattern
  anchors the end, except that in Python (without `re.MULTILINE`) `$` also
  matches just before one newline that ends the string;
* `[^/]+` matches one or more characters other than `/` (newline included);
  being greedy and unable to consume `/`, the group is exactly the maximal
  `/`-free run after `gs://`, and the following literal `/` must be the next
  character — hence `takeWhile` / `dropWhile`;
* `.` matches any character except newline, so `.+$` accepts exactly a
  non-empty newline-free tail, optionally followed by one final newline. -/

/-- `dotPlusDollar path`: does `path` match `.+$` (Python, no DOTALL, no
MULTILINE)?  Either `path` is non-empty and newline-free, or `path` is a
non-empty newline-free run followed by a single final newline. -/
def dotPlusDollar (p : List Char) : Bool :=
  (!p.isEmpty && p.all (fun c => c != '\n')) ||
  (p.getLast? == some '\n' && !p.dropLast.isEmpty
     && p.dropLast.all (fun c => c != '\n'))

/-- `re.match(r"^gs://([^/]+)/.+$", s)` on the character list of `s`:
`none` when the match fails, `some bucket` (the content of group 1) when it
succeeds. -/
def gsMatchList : List Char → Option (List Char)
  | g :: s :: colon :: sl1 :: sl2 :: rest =>
    if g == 'g' && s == 's' && colon == ':' && sl1 == '/' && sl2 == '/' then
      let bucket := rest.takeWhile (fun c => c != '/')
      let tail := rest.dropWhile (fun c => c != '/')
      -- `tail` is empty (no `/` after the bucket: match fails) or starts
      -- with the literal `/` the pattern requires; `tail.tail` is then the
      -- object path that `.+$` must accept.
      if !bucket.isEmpty && !tail.isEmpty && dotPlusDollar tail.tail then
        some bucket
      else
        none
    else
      none
  | _ => none

/-- The bucket-extraction step of `submit` (lines 25-26):
`some bucket` when the locator matches, `none` when `re.match` returned
`None` (in which case line 26 raises `AttributeError`). -/
def gsMatch (s : String) : Option String :=
  (gsMatchList s.data).map (fun l => String.mk l)

/-! ### The execution script (lines 29-48)

The Python f-string is reproduced as an explicit concatenation.  `\x7b` and
`\x7d` denote the literal braces of the JSON body (the source writes them as
the escaped `\x7b\x7b` / `\x7d\x7d` of an f-string) and `\x27` denotes the
single-quote character around it.  The only substitution points of the
f-string are `render_job_id` and `settings.pipeline_manager_url`; the
`webhook` argument of `submit` is never interpolated. -/

/-- The JSON body of the callback: `\x7b"workflow_id": "<render_job_id>"\x7d`. -/
def workflowBody (render_job_id : String) : String :=
  "\x7b\"workflow_id\": \"" ++ render_job_id ++ "\"\x7d"

/-- The final line of the script: the HTTP callback (`curl -X POST ...`),
whose target is `settings.pipeline_manager_url` plus a fixed path. -/
def callbackCmd (render_job_id pipeline_manager_url : String) : String :=
  "curl -X POST -d \x27" ++ workflowBody render_job_id
    ++ "\x27 -H \"Content-Type: application/json\" " ++ pipeline_manager_url
    ++ "/actions/signal/rendering_process_post_blender\n"

/-- Lines 30-46 of the source script: copy the scene, render one frame, copy
the outputs, install curl.  Every occurrence of `{render_job_id}` is
substituted. -/
def scriptBody (render_job_id : String) : String :=
  "set -euo pipefail\n\n# 1) copy the uploaded blend (renders/<id>/<id>.blend) to ./scene.blend\necho \"📂  Copying .blend from renders/"
    ++ render_job_id ++ "/" ++ render_job_id
    ++ ".blend\"\ncp \"/mnt/stateful_partition/in/renders/"
    ++ render_job_id ++ "/" ++ render_job_id
    ++ ".blend\" scene.blend\n\n# 2) render a single frame (CPU)\necho \"🎬  Rendering frame 1\"\nblender -b scene.blend -E CYCLES -f 1\n\n# 3) copy outputs back to out bucket\nOUT_DIR=/mnt/stateful_partition/out/renders/"
    ++ render_job_id
    ++ "\nmkdir -p \"$OUT_DIR\"\ncp *.png \"$OUT_DIR/\"\n\n# 4) webhook (required)\napt-get -qq update && apt-get -y install --no-install-recommends curl >/dev/null\n"

/-- The whole script the source assigns to `script` (line 29): the body
followed by the callback line. -/
def buildScript (render_job_id pipeline_manager_url : String) : String :=
  scriptBody render_job_id ++ callbackCmd render_job_id pipeline_manager_url

/-! ### The job description (lines 51-101) -/

/-- The single runnable (lines 53-59). -/
def mkRunnable (script : String) : Runnable :=
  { container :=
      { image_uri := "docker.io/linuxserver/blender:3.5.0"
        entrypoint := "/bin/bash"
        commands := ["-c", script] } }

/-- The `batch_v1.Job` object (lines 61-101), with the script, the extracted
scene bucket, the settings bucket and the render id filled in. -/
def buildJob (script scene_bucket out_bucket render_job_id : String) : Job :=
  { task_groups :=
      [ { task_spec :=
            { runnables := [mkRunnable script]
              volumes :=
                [ { gcs := { remote_path := scene_bucket }
                    mount_path := "/mnt/stateful_partition/in"
                    mount_options := [] }
                , { gcs := { remote_path := out_bucket }
                    mount_path := "/mnt/stateful_partition/out"
                    mount_options := [] } ]
              compute_resource := { cpu_milli := 96000, memory_mib := 384 * 1024 }
              max_run_duration_seconds := 3600 }
          task_count := 1 } ]
    allocation_policy := { instances := [ { machine_type := "n2-standard-96" } ] }
    logs_policy := { destination := LogsDestination.CLOUD_LOGGING
                     logs_path := "batch_task_logs" }
    labels := [("render_job", render_job_id)] }

/-- Line 20: `job_id = f"render-{render_job_id}-{uuid.uuid4().hex[:6]}"`;
the six-character random hex slice is the explicit `suffix` argument. -/
def job_id (render_job_id suffix : String) : String :=
  "render-" ++ render_job_id ++ "-" ++ suffix

/-- The `submit` function (lines 9-109).  `create_job` stands for
`client.create_job` and receives exactly the `parent`, `job` and `job_id`
the source passes; its result (the created job name, or a raised exception)
is the result of `submit`.  When `re.match` returns `None`, line 26 raises
`AttributeError` before the client is ever used.  The `webhook` parameter is
declared by the source and never read. -/
def submit (render_job_id blend_uri : String) (webhook : Option String)
    (s : Settings) (suffix : String)
    (create_job : String → Job → String → Except PyExn String) :
    Except PyExn String :=
  let jid := job_id render_job_id suffix
  let parent := "projects/" ++ s.project_id ++ "/locations/" ++ s.region
  match gsMatch blend_uri with
  | none => Except.error PyExn.attributeErrorNoneGroup
  | some scene_bucket =>
      let script := buildScript render_job_id s.pipeline_manager_url
      let job := buildJob script scene_bucket s.bucket render_job_id
      create_job parent job jid

/-- Read-only GCS mount, per the Batch volume semantics the specification
appeals to when it distinguishes a read mount from a read/write mount: a
volume is mounted read-only exactly when its mount options contain "ro". -/
def readOnlyMount (v : Volume) : Prop :=
  "ro" ∈ v.mount_options

instance (v : Volume) : Decidable (readOnlyMount v) := by
  rw [readOnlyMount]
  infer_instance

/-- Concrete settings used by the closed witnesses and counterexamples. -/
def exSettings : Settings :=
  { project_id := "proj"
    region := "europe-west1"
    bucket := "render-out"
    pipeline_manager_url := "https://pm.internal" }

/-- A remote call that succeeds, returning the documented
`projects/{project}/locations/{region}/jobs/{job_id}` shape. -/
def okRemote : String → Job → String → Except PyExn String :=
  fun parent _ jid => Except.ok (parent ++ "/jobs/" ++ jid)

/-- A remote call that raises the given exception. -/
def failRemote (e : PyExn) : String → Job → String → Except PyExn String :=
  fun _ _ _ => Except.error e

instance : DecidableEq (Except PyExn String) := fun
  | Except.ok a, Except.ok b =>
      if h : a = b then Decidable.isTrue (by rw [h]) else Decidable.isFalse (by simp [h])
  | Except.ok _, Except.error _ => Decidable.isFalse (by simp)
  | Except.error _, Except.ok _ => Decidable.isFalse (by simp)
  | Except.error a, Except.error b =>
      if h : a = b then Decidable.isTrue (by rw [h]) else Decidable.isFalse (by simp [h])

/-! ## Helper lemmas -/

theorem strData_append (a b : String) : (a ++ b).data = a.data ++ b.data := by
  cases a
  cases b
  rfl

theorem headMatches_append (sub t : List Char) : headMatches sub (sub ++ t) = true := by
  induction sub with
  | nil => rfl
  | cons c cs ih => simp [headMatches, ih]

theorem listContains_parts (sub : List Char) :
    ∀ (pre post : List Char), listContains (pre ++ (sub ++ post)) sub = true := by
  intro pre
  induction pre with
  | nil =>
    intro post
    have hm : headMatches sub (sub ++ post) = true := headMatches_append sub post
    cases h : sub ++ post with
    | nil =>
      rcases List.append_eq_nil.mp h with ⟨h1, _⟩
      simp [h1, listContains]
    | cons c t =>
      rw [h] at hm
      simp only [List.nil_append, h, listContains, hm, Bool.true_or]
  | cons c cs ih =>
    intro post
    have := ih post
    simp only [List.cons_append, listContains]
    simp [this]

theorem containsSubstr_parts (pre sub post big : String)
    (h : big.data = pre.data ++ (sub.data ++ post.data)) :
    containsSubstr big sub = true := by
  rw [containsSubstr, h]
  exact listContains_parts sub.data pre.data post.data

/-! ## The claims -/

/-- C4 (amended): for every well-formed scene locator of the form
`gs://bucket/path` — scheme `gs` as the source pattern demands, non-empty
bucket containing no slash, non-empty path containing no newline — the
bucket-extraction step of `submit` yields exactly `bucket`.  (The original
claim allowed any scheme; `gsMatch_foreign_scheme_cex` shows the pattern
rejects every other scheme.) -/
theorem gsMatch_wellFormed (bucket path : String)
    (hb : bucket.data ≠ []) (hbs : ∀ c ∈ bucket.data, c ≠ '/')
    (hp : path.data ≠ []) (hpn : ∀ c ∈ path.data, c ≠ '\n') :
    gsMatch ("gs://" ++ bucket ++ "/" ++ path) = some bucket := by
  have hdata : ("gs://" ++ bucket ++ "/" ++ path).data
      = 'g' :: 's' :: ':' :: '/' :: '/' :: (bucket.data ++ '/' :: path.data) := by
    simp [strData_append]
  rw [gsMatch, hdata, gsMatchList]
  have htake : (bucket.data ++ '/' :: path.data).takeWhile (fun c => c != '/')
      = bucket.data := by
    rw [List.takeWhile_append_of_pos (by intro a ha; simp [hbs a ha])]
    simp [List.takeWhile]
  have hdrop : (bucket.data ++ '/' :: path.data).dropWhile (fun c => c != '/')
      = '/' :: path.data := by
    rw [List.dropWhile_append_of_pos (by intro a ha; simp [hbs a ha])]
    simp [List.dropWhile]
  simp only [htake, hdrop]
  have hdot : dotPlusDollar path.data = true := by
    rw [dotPlusDollar]
    have h1 : path.data.isEmpty = false := by
      cases hcase : path.data with
      | nil => exact absurd hcase hp
      | cons a t => rfl
    have h2 : path.data.all (fun c => c != '\n') = true := by
      rw [List.all_eq_true]
      intro a ha
      simp [hpn a ha]
    simp [h1, h2]
  have hbe : bucket.data.isEmpty = false := by
    cases hcase : bucket.data with
    | nil => exact absurd hcase hb
    | cons a t => rfl
  simp only [List.tail_cons, hdot, hbe]
  simp [String.mk]

/-- C4 witness: the amended theorem applied to `gs://scenes/foo.blend`. -/
theorem gsMatch_wellFormed_app :
    gsMatch ("gs://" ++ "scenes" ++ "/" ++ "foo.blend") = some "scenes" :=
  gsMatch_wellFormed "scenes" "foo.blend" (by decide) (by decide) (by decide) (by decide)

/-- C4 counterexample: the source pattern is anchored on the literal scheme
`gs`, so the well-formed locator `s3://scenes/foo.blend` (scheme `s3`,
bucket `scenes`, path `foo.blend`) is rejected outright instead of yielding
`"scenes"`, refuting the claim for arbitrary schemes. -/
theorem gsMatch_foreign_scheme_cex :
    gsMatch "s3://scenes/foo.blend" = none ∧
      gsMatch "s3://scenes/foo.blend" ≠ some "scenes" := by
  constructor
  · decide
  · decide

/-- C10: for every scene locator carrying a scheme and a bucket but an
empty object path — `gs://bucket` or `gs://bucket/`, bucket non-empty and
slash-free — the bucket extraction of `submit` fails to match: the pattern
requires at least one character after the slash that follows the bucket. -/
theorem gsMatch_emptyPath (bucket : String)
    (hb : bucket.data ≠ []) (hbs : ∀ c ∈ bucket.data, c ≠ '/') :
    gsMatch ("gs://" ++ bucket) = none ∧ gsMatch ("gs://" ++ bucket ++ "/") = none := by
  constructor
  · have hdata : ("gs://" ++ bucket).data
        = 'g' :: 's' :: ':' :: '/' :: '/' :: bucket.data := by
      simp [strData_append]
    rw [gsMatch, hdata, gsMatchList]
    have hdrop : bucket.data.dropWhile (fun c => c != '/') = [] := by
      rw [List.dropWhile_eq_nil_iff]
      intro a ha
      simp [hbs a ha]
    simp [hdrop]
  · have hdata : ("gs://" ++ bucket ++ "/").data
        = 'g' :: 's' :: ':' :: '/' :: '/' :: (bucket.data ++ ['/']) := by
      simp [strData_append]
    rw [gsMatch, hdata, gsMatchList]
    have hdrop : (bucket.data ++ ['/']).dropWhile (fun c => c != '/') = ['/'] := by
      rw [List.dropWhile_append_of_pos (by intro a ha; simp [hbs a ha])]
      simp [List.dropWhile]
    simp [hdrop, dotPlusDollar]

/-- C10 witness: the theorem applied to the bucket `bucket`, covering both
`gs://bucket` and `gs://bucket/`. -/
theorem gsMatch_emptyPath_app :
    gsMatch ("gs://" ++ "bucket") = none ∧ gsMatch ("gs://" ++ "bucket" ++ "/") = none :=
  gsMatch_emptyPath "bucket" (by decide) (by decide)

/-- C1 (amended): for every `scene_uri` the locator pattern rejects (missing
scheme, missing bucket segment, wrong scheme, ...), `submit` fails with
`AttributeError` — line 26 calls `.group(1)` on the `None` returned by
`re.match` — and it fails before any remote create-job call is attempted:
the result is the same for every `create_job` function.  (The specification
names the error `InvalidInputError`; no such error exists in the code, see
`submit_malformed_locator_not_invalidInputError_cex`.) -/
theorem submit_malformed_locator_attributeError
    (render_job_id blend_uri : String) (webhook : Option String)
    (s : Settings) (suffix : String)
    (create_job : String → Job → String → Except PyExn String)
    (h : gsMatch blend_uri = none) :
    submit render_job_id blend_uri webhook s suffix create_job
      = Except.error PyExn.attributeErrorNoneGroup := by
  simp [submit, h]

/-- C1 witness: the amended theorem applied to the scheme-less locator
`scenes/foo.blend`. -/
theorem submit_malformed_locator_attributeError_app :
    submit "abc123" "scenes/foo.blend" none exSettings "aaaaaa" okRemote
      = Except.error PyExn.attributeErrorNoneGroup :=
  submit_malformed_locator_attributeError "abc123" "scenes/foo.blend" none exSettings
    "aaaaaa" okRemote (by decide)

/-- C1 counterexample: on the malformed locator `scenes/foo.blend` the
submission fails with `AttributeError`, not with the `InvalidInputError` the
claim names — the code never raises `InvalidInputError`. -/
theorem submit_malformed_locator_not_invalidInputError_cex :
    submit "abc123" "scenes/foo.blend" none exSettings "aaaaaa" okRemote
        = Except.error PyExn.attributeErrorNoneGroup ∧
      submit "abc123" "scenes/foo.blend" none exSettings "aaaaaa" okRemote
        ≠ Except.error PyExn.invalidInputError := by
  constructor
  · decide
  · decide

/-- C2 (amended): for every `render_job_id`, the execution script composed
by `submit` contains the HTTP callback step (`curl -X POST ...`) even when
the `webhook` argument is omitted — the script does not depend on `webhook`
at all, and its final line is always the callback. -/
theorem script_contains_callback_without_webhook
    (render_job_id pipeline_manager_url : String) :
    containsSubstr (buildScript render_job_id pipeline_manager_url) "curl -X POST" = true := by
  apply containsSubstr_parts (scriptBody render_job_id) "curl -X POST"
    (" -d \x27" ++ workflowBody render_job_id
      ++ "\x27 -H \"Content-Type: application/json\" " ++ pipeline_manager_url
      ++ "/actions/signal/rendering_process_post_blender\n")
  have hsplit : ("curl -X POST -d \x27" : String).data
      = ("curl -X POST" : String).data ++ (" -d \x27" : String).data := by decide
  simp [buildScript, callbackCmd, strData_append, hsplit]

set_option maxRecDepth 8000 in
/-- C2 counterexample: with `webhook` omitted, the script composed for
`render_job_id = "abc123"` still contains the HTTP callback step, refuting
the claim that it contains none. -/
theorem script_webhook_omitted_callback_present_cex :
    containsSubstr (buildScript "abc123" "https://pm.internal") "curl -X POST" = true := by
  decide

/-- C3 (amended): for every `render_job_id`, the HTTP callback in the
execution script carries the JSON body
`\x7b"workflow_id": "<render_job_id>"\x7d` exactly as the claim states, but its
target is `settings.pipeline_manager_url` plus the fixed path
`/actions/signal/rendering_process_post_blender` — a supplied `webhook_url`
is not embedded anywhere (see `script_webhook_not_embedded_cex`). -/
theorem script_callback_body_and_target
    (render_job_id pipeline_manager_url : String) :
    containsSubstr (buildScript render_job_id pipeline_manager_url)
        (workflowBody render_job_id) = true ∧
      containsSubstr (buildScript render_job_id pipeline_manager_url)
        (pipeline_manager_url ++ "/actions/signal/rendering_process_post_blender") = true := by
  constructor
  · apply containsSubstr_parts
      (scriptBody render_job_id ++ "curl -X POST -d \x27")
      (workflowBody render_job_id)
      ("\x27 -H \"Content-Type: application/json\" " ++ pipeline_manager_url
        ++ "/actions/signal/rendering_process_post_blender\n")
    simp [buildScript, callbackCmd, strData_append]
  · apply containsSubstr_parts
      (scriptBody render_job_id ++ "curl -X POST -d \x27" ++ workflowBody render_job_id
        ++ "\x27 -H \"Content-Type: application/json\" ")
      (pipeline_manager_url ++ "/actions/signal/rendering_process_post_blender")
      "\n"
    have hsplit : ("/actions/signal/rendering_process_post_blender\n" : String).data
        = ("/actions/signal/rendering_process_post_blender" : String).data
          ++ ("\n" : String).data := by decide
    simp [buildScript, callbackCmd, strData_append, hsplit]

set_option maxRecDepth 8000 in
/-- C3 counterexample: submitting with the supplied webhook
`https://example.com/hook` produces exactly the same outcome as submitting
with no webhook, and the composed script nowhere contains the supplied URL —
refuting the claim that the webhook is embedded verbatim as the callback
target. -/
theorem script_webhook_not_embedded_cex :
    submit "abc123" "gs://scenes/foo.blend" (some "https://example.com/hook")
        exSettings "aaaaaa" okRemote
      = submit "abc123" "gs://scenes/foo.blend" none exSettings "aaaaaa" okRemote ∧
    containsSubstr (buildScript "abc123" exSettings.pipeline_manager_url)
        "https://example.com/hook" = false := by
  constructor
  · rfl
  · decide

/-- C5: for every `render_job_id` and every random suffix, the job
identifier generated by `submit` is the fixed prefix `render-`, then the
given `render_job_id` verbatim, then `-` and the suffix: it starts with the
prefix and contains the render id, followed by the suffix. -/
theorem job_id_prefix_and_render_id (render_job_id suffix : String) :
    job_id render_job_id suffix = "render-" ++ render_job_id ++ "-" ++ suffix ∧
      headMatches ("render-" : String).data (job_id render_job_id suffix).data = true ∧
      containsSubstr (job_id render_job_id suffix) render_job_id = true := by
  refine ⟨rfl, ?_, ?_⟩
  · have hdata : (job_id render_job_id suffix).data
        = ("render-" : String).data ++ (render_job_id.data ++ ("-" ++ suffix).data) := by
      simp [job_id, strData_append]
    rw [hdata]
    exact headMatches_append _ _
  · apply containsSubstr_parts "render-" render_job_id ("-" ++ suffix)
    simp [job_id, strData_append]

/-- C6: for `render_job_id = "abc123"` and `scene_uri = "gs://scenes/foo.blend"`
(and any settings, webhook, suffix), the bucket extraction returns
`"scenes"`, and the job description `submit` hands to the remote create-job
call is the one built from it — which references exactly two storage volume
mounts and exactly one task (one task group with `task_count = 1`). -/
theorem submit_example_abc123 (s : Settings) (webhook : Option String) (suffix : String)
    (create_job : String → Job → String → Except PyExn String) :
    gsMatch "gs://scenes/foo.blend" = some "scenes" ∧
      submit "abc123" "gs://scenes/foo.blend" webhook s suffix create_job
        = create_job ("projects/" ++ s.project_id ++ "/locations/" ++ s.region)
            (buildJob (buildScript "abc123" s.pipeline_manager_url) "scenes" s.bucket "abc123")
            (job_id "abc123" suffix) ∧
      (buildJob (buildScript "abc123" s.pipeline_manager_url) "scenes" s.bucket
          "abc123").task_groups.map
        (fun tg => (tg.task_spec.volumes.length, tg.task_count)) = [(2, 1)] := by
  have hgs : gsMatch "gs://scenes/foo.blend" = some "scenes" := by decide
  refine ⟨hgs, ?_, rfl⟩
  simp [submit, hgs]

/-- C7 (amended): whenever the remote create-job call fails, `submit` fails
with the underlying remote exception propagated unchanged — not wrapped in
any `SubmissionError`, which the code never defines (see
`submit_remote_failure_not_submissionError_cex`) — after exactly one
application of `create_job`, with no local state and no retry (the embedding
is pure and applies `create_job` once). -/
theorem submit_remote_failure_propagates
    (render_job_id blend_uri : String) (webhook : Option String) (s : Settings)
    (suffix scene_bucket : String) (e : PyExn)
    (create_job : String → Job → String → Except PyExn String)
    (h1 : gsMatch blend_uri = some scene_bucket)
    (h2 : create_job ("projects/" ++ s.project_id ++ "/locations/" ++ s.region)
        (buildJob (buildScript render_job_id s.pipeline_manager_url) scene_bucket
          s.bucket render_job_id)
        (job_id render_job_id suffix) = Except.error e) :
    submit render_job_id blend_uri webhook s suffix create_job = Except.error e := by
  simp [submit, h1, h2]

/-- C7 witness: the amended theorem applied to a remote call that raises
exception code 7 on `gs://scenes/foo.blend`. -/
theorem submit_remote_failure_propagates_app :
    submit "abc123" "gs://scenes/foo.blend" none exSettings "aaaaaa"
        (failRemote (PyExn.remoteError 7)) = Except.error (PyExn.remoteError 7) :=
  submit_remote_failure_propagates "abc123" "gs://scenes/foo.blend" none exSettings
    "aaaaaa" "scenes" (PyExn.remoteError 7) (failRemote (PyExn.remoteError 7))
    (by decide) rfl

/-- C7 counterexample: when the remote call raises exception code 7, the
result of `submit` is that exception unchanged and is not the
`SubmissionError`-wrapped value the claim describes. -/
theorem submit_remote_failure_not_submissionError_cex :
    submit "abc123" "gs://scenes/foo.blend" none exSettings "aaaaaa"
        (failRemote (PyExn.remoteError 7)) = Except.error (PyExn.remoteError 7) ∧
      submit "abc123" "gs://scenes/foo.blend" none exSettings "aaaaaa"
          (failRemote (PyExn.remoteError 7))
        ≠ Except.error (PyExn.submissionError (PyExn.remoteError 7)) := by
  constructor
  · decide
  · decide

/-- C8 (amended): for every render id, extracted scene bucket, output bucket
and pipeline-manager URL, the job description has one task group with
exactly one task, the execution script as its sole runnable, two storage
volume mounts — the input bucket at `/mnt/stateful_partition/in` and the
output bucket at `/mnt/stateful_partition/out`, both with empty mount
options, i.e. both at the provider's read/write default and neither marked
read-only (see `buildJob_no_readonly_mount_cex`) — the fixed compute shape
(96000 cpu milli, 393216 MiB), a 3600-second wall-clock cap, cloud-native
logging as the log sink, and the label `render_job` carrying the render id. -/
theorem buildJob_description (render_job_id scene_bucket out_bucket url : String) :
    (buildJob (buildScript render_job_id url) scene_bucket out_bucket
        render_job_id).task_groups.map TaskGroup.task_count = [1] ∧
      (buildJob (buildScript render_job_id url) scene_bucket out_bucket
          render_job_id).task_groups.map (fun tg => tg.task_spec.runnables)
        = [[mkRunnable (buildScript render_job_id url)]] ∧
      (buildJob (buildScript render_job_id url) scene_bucket out_bucket
          render_job_id).task_groups.map (fun tg => tg.task_spec.volumes.map
            (fun v => (v.gcs.remote_path, v.mount_path, v.mount_options)))
        = [[(scene_bucket, "/mnt/stateful_partition/in", ([] : List String)),
            (out_bucket, "/mnt/stateful_partition/out", ([] : List String))]] ∧
      (buildJob (buildScript render_job_id url) scene_bucket out_bucket
          render_job_id).task_groups.map
            (fun tg => (tg.task_spec.compute_resource.cpu_milli,
              tg.task_spec.compute_resource.memory_mib,
              tg.task_spec.max_run_duration_seconds))
        = [(96000, 393216, 3600)] ∧
      (buildJob (buildScript render_job_id url) scene_bucket out_bucket
          render_job_id).logs_policy
        = { destination := LogsDestination.CLOUD_LOGGING, logs_path := "batch_task_logs" } ∧
      (buildJob (buildScript render_job_id url) scene_bucket out_bucket
          render_job_id).labels = [("render_job", render_job_id)] :=
  ⟨rfl, rfl, rfl, rfl, rfl, rfl⟩

/-- C8 counterexample: in the job built for `render_job_id = "abc123"` with
scene bucket `scenes` and output bucket `render-out`, both volumes carry
empty mount options, so no volume — in particular not the input-bucket
volume — is mounted read-only, refuting the claim's distinction between a
read-mounted input bucket and a read/write-mounted output bucket. -/
theorem buildJob_no_readonly_mount_cex :
    (buildJob (buildScript "abc123" "https://pm.internal") "scenes" "render-out"
        "abc123").task_groups.map
      (fun tg => tg.task_spec.volumes.map Volume.mount_options) = [[[], []]] ∧
      ((buildJob (buildScript "abc123" "https://pm.internal") "scenes" "render-out"
          "abc123").task_groups.any
        (fun tg => tg.task_spec.volumes.any
          (fun v => decide (readOnlyMount v)))) = false := by
  constructor
  · rfl
  · rfl

/-- C9: the `webhook` argument has no influence on any output of `submit`:
for every two webhook values (including the omitted `none`), and every
remote create-job function — hence for everything `submit` passes to the
remote call, the execution script and job description included — the results
coincide. -/
theorem submit_webhook_noninterference
    (render_job_id blend_uri : String) (s : Settings) (suffix : String)
    (create_job : String → Job → String → Except PyExn String)
    (w1 w2 : Option String) :
    submit render_job_id blend_uri w1 s suffix create_job
      = submit render_job_id blend_uri w2 s suffix create_job := rfl
